import Mathlib

/-!
Shallow embedding of the AI cover-letter generator script (src/main.py).

The script is a single Streamlit page. We model it as pure functions over
explicit inputs, with the externally observable behaviour captured as a
trace of `Event`s (network calls to the inference service, user-facing
messages, the rendered output and the download artifact) together with a
final per-submission state.

External collaborators are passed in as oracles:
  * `convert`      models `pdf2image.convert_from_bytes` (either a list of
                   page images or a raised exception message);
  * `saveJPEG`     models `PIL.Image.save(buffer, format="JPEG")`, i.e. the
                   JPEG bytes produced for a page image;
  * `visionService` / `genService` model the one chat-completion round trip
                   each wrapper performs: the text the service returns, or
                   the exception message it raises.

Streamlit widgets are modelled by their values: a `text_area` whose default
is `v` and which the user may edit is a function `String → String` applied
to `v`. Constant headings (`st.title`, `st.subheader`, ...) and the
theme CSS injection are presentation-only and carry no data, so they are not
recorded in the trace.
-/

set_option autoImplicit false

namespace CoverLetter

/-- The standard base64 alphabet, as used by `base64.b64encode`. -/
def base64Alphabet : List Char :=
  ("ABCDEFGHIJKLMNOPQRSTUVWXYZabcdefghijklmnopqrstuvwxyz0123456789+/").toList

/-- The base64 digit for a sextet value. -/
def base64Char (n : Nat) : Char := base64Alphabet.getD n '='

/-- Base64-encode a byte list (standard RFC 4648 encoding with padding),
modelling Python's `base64.b64encode(...).decode('utf-8')`. -/
def base64EncodeList : List Nat → List Char
  | a :: b :: c :: rest =>
      base64Char (a / 4) :: base64Char (a % 4 * 16 + b / 16) ::
      base64Char (b % 16 * 4 + c / 64) :: base64Char (c % 64) ::
      base64EncodeList rest
  | [a, b] =>
      [base64Char (a / 4), base64Char (a % 4 * 16 + b / 16),
       base64Char (b % 16 * 4), '=']
  | [a] =>
      [base64Char (a / 4), base64Char (a % 4 * 16), '=', '=']
  | [] => []

/-- Base64 encoding as a string. -/
def base64Encode (bytes : List Nat) : String := String.mk (base64EncodeList bytes)

/-- Model of Python's `s.endswith(suffix)` on strings. -/
def pyEndsWith (s suffix : String) : Bool := List.isSuffixOf suffix.data s.data

/-- Model of Python's `s.startswith(p)` on strings. -/
def pyStartsWith (s p : String) : Bool := List.isPrefixOf p.data s.data

/-- Python's `str.strip()` with no argument removes leading and trailing
(ASCII) whitespace; this predicate models the ASCII whitespace characters
it strips. -/
def isPyWhitespace (c : Char) : Bool :=
  c = ' ' || c = '\t' || c = '\n' || c = '\x0d' || c = '\x0b' || c = '\x0c'

/-- Model of Python's `s.strip()`: drop leading and trailing whitespace. -/
def pyStrip (s : String) : String :=
  String.mk (((s.data.dropWhile isPyWhitespace).reverse.dropWhile isPyWhitespace).reverse)

/-- Observable events of one script run: the two kinds of network call
issued to the inference service, the user-facing status messages, the
rendered markdown, the editable output field, and the download artifact. -/
inductive Event where
  /-- `st.info` message. -/
  | stInfo (msg : String)
  /-- `st.error` message. -/
  | stError (msg : String)
  /-- `st.success` message. -/
  | stSuccess (msg : String)
  /-- `st.markdown` rendering of the generated letter (template-dependent). -/
  | stMarkdown (content : String)
  /-- The editable cover-letter output field (`st.text_area` in the
  Customize tab), recorded with the text it currently shows. -/
  | stEditor (value : String)
  /-- One request to the vision chat-completion endpoint
  (`extract_text_from_resume_from_base64`), with the inline base64 image. -/
  | extractionCall (imageB64 : String)
  /-- One request to the text chat-completion endpoint
  (`generate_cover_letter`), with the system and user message contents. -/
  | generationCall (system user : String)
  /-- `st.download_button`: data, file name, MIME type. -/
  | download (data fileName mime : String)
  deriving Repr, DecidableEq

/-- Is this event a call to the vision endpoint? -/
def isExtractionCall : Event → Bool
  | .extractionCall _ => true
  | _ => false

/-- Is this event a call to the text-generation endpoint? -/
def isGenerationCall : Event → Bool
  | .generationCall _ _ => true
  | _ => false

/-- Is this event a network call (extraction or generation)? -/
def isNetworkCall (e : Event) : Bool := isExtractionCall e || isGenerationCall e

/-- Number of extraction calls in a trace. -/
def extractionCalls (evs : List Event) : Nat := (evs.filter isExtractionCall).length

/-- Number of generation calls in a trace. -/
def generationCalls (evs : List Event) : Nat := (evs.filter isGenerationCall).length

/-- Number of network calls in a trace. -/
def networkCalls (evs : List Event) : Nat := (evs.filter isNetworkCall).length

/-- Per-submission state, following the spec's state machine: a submission
ends `Rejected` (validation failed), `Failed` (the generated value was
classified as an error), or `Ready` with the cover letter; a run where the
generate button was not activated stays `Idle`. -/
inductive SubState where
  | Idle
  | Rejected
  | Failed
  | Ready (letter : String)
  deriving Repr, DecidableEq

/-- `prepare_resume_image(file_bytes, ext)` (src/main.py:13-34).
For a name ending in `.pdf` it converts the bytes to page images, takes the
first page, saves it as JPEG and base64-encodes the result; an empty page
list yields `None` silently, a converter exception yields `None` after an
`st.error` carrying the message. A non-PDF file is base64-encoded as is.
Returns the `Option`al base64 string together with the events emitted. -/
def prepare_resume_image {Image : Type}
    (convert : List Nat → Except String (List Image))
    (saveJPEG : Image → List Nat)
    (file_bytes : List Nat) (ext : String) : Option String × List Event :=
  if pyEndsWith ext (".pdf") then
    match convert file_bytes with
    | .ok images =>
      match images with
      | image :: _ => (some (base64Encode (saveJPEG image)), [])
      | [] => (none, [])
    | .error e => (none, [.stError ("PDF conversion error: " ++ e)])
  else
    (some (base64Encode file_bytes), [])

/-- The fixed instruction of the vision request (src/main.py:45). -/
def extractionInstruction : String := "Extract all text from this resume image."

/-- `extract_text_from_resume_from_base64(base64_image)` (src/main.py:37-62).
Issues exactly one vision-completion request; on success returns the
service's text, on an exception returns the error-marker string. -/
def extract_text_from_resume_from_base64 (visionService : Except String String)
    (base64_image : String) : String × List Event :=
  match visionService with
  | .ok text => (text, [.extractionCall base64_image])
  | .error e => ("Error extracting resume text: " ++ e, [.extractionCall base64_image])

/-- The constant system message of the generation request (src/main.py:72-79). -/
def systemMessageContent : String :=
  "You are an expert cover letter generator. Using the candidate\x27s resume details, " ++
  "job description, and industry-specific insights, generate a professional cover letter. " ++
  "Ensure the tone is aligned with the user\x27s selection."

/-- The user message of the generation request (src/main.py:81-90): a
deterministic template interpolating industry, tone, resume text and job
description. -/
def userMessageContent (resume_text job_description industry tone : String) : String :=
  "Generate a cover letter for a job in the " ++ industry ++ " industry. " ++
  "Use the resume information below and the job description to highlight the candidate\x27s strengths and fit for the role. " ++
  "Ensure to incorporate relevant industry research and maintain a " ++ tone ++ " tone.\n\n" ++
  "Resume:\n" ++ resume_text ++ "\n\n" ++
  "Job Description:\n" ++ job_description ++ "\n"

/-- The instruction line of the generation prompt (everything before the
resume block), interpolating industry and tone. -/
def promptInstruction (industry tone : String) : String :=
  "Generate a cover letter for a job in the " ++ industry ++ " industry. " ++
  "Use the resume information below and the job description to highlight the candidate\x27s strengths and fit for the role. " ++
  "Ensure to incorporate relevant industry research and maintain a " ++ tone ++ " tone.\n\n"

/-- The resume block of the generation prompt. -/
def resumeBlock (resume_text : String) : String :=
  ("Resume:\n") ++ resume_text ++ ("\n\n")

/-- The job-description block of the generation prompt. -/
def jobBlock (job_description : String) : String :=
  ("Job Description:\n") ++ job_description ++ ("\n")

/-- `generate_cover_letter(resume_text, job_description, industry, tone)`
(src/main.py:65-104). Issues exactly one text-completion request with the
fixed system message and the templated user message; on success returns the
service's text, on an exception returns the error-marker string. -/
def generate_cover_letter (genService : Except String String)
    (resume_text job_description industry tone : String) : String × List Event :=
  match genService with
  | .ok text =>
      (text, [.generationCall systemMessageContent
                (userMessageContent resume_text job_description industry tone)])
  | .error e =>
      ("Error generating cover letter: " ++ e,
       [.generationCall systemMessageContent
          (userMessageContent resume_text job_description industry tone)])

/-- Validation message for a blank resume text (src/main.py:180). -/
def msgResumeMissing : String :=
  "Resume text is missing. Please check your upload and extraction."

/-- Validation message for a blank job description (src/main.py:182). -/
def msgJobRequired : String := "Job description is required."

/-- Info message shown while no file is uploaded (src/main.py:169). -/
def msgUploadInfo : String := "Please upload your resume file to proceed."

/-- Success message after extraction (src/main.py:164). -/
def msgExtractSuccess : String := "Resume text extracted successfully!"

/-- Error message when normalization returned `None` (src/main.py:157). -/
def msgProcessFailed : String := "Failed to process the uploaded file."

/-- Preview error for a PDF with zero pages (src/main.py:148). -/
def msgPreviewEmpty : String := "Could not convert PDF to image."

/-- The marker the script uses to recognize an error string (src/main.py:161,187). -/
def errorMarker : String := "Error"

/-- File name of the download artifact (src/main.py:210). -/
def downloadFileName : String := "cover_letter.txt"

/-- MIME type of the download artifact (src/main.py:211). -/
def downloadMime : String := "text/plain"

/-- Step 1 of `main` (src/main.py:132-169): the upload, preview, normalize
and extract sequence. Given the uploaded file (bytes and lowercased name)
and the user's edit of the extracted-text field (`editResume`, applied to
the field's default value), returns the value of `extracted_resume_text`
after step 1 together with the emitted events. With no upload the value
stays `""`; when extraction returns an error string, that string is shown
via `st.error` and remains the value of `extracted_resume_text`. -/
def uploadPhase {Image : Type}
    (convert : List Nat → Except String (List Image))
    (saveJPEG : Image → List Nat)
    (visionService : Except String String)
    (editResume : String → String)
    (uploaded : Option (List Nat × String)) : String × List Event :=
  match uploaded with
  | none => ("", [.stInfo msgUploadInfo])
  | some (file_bytes, ext) =>
    let previewEvents : List Event :=
      if pyEndsWith ext (".pdf") then
        match convert file_bytes with
        | .ok (_ :: _) => []
        | .ok [] => [.stError msgPreviewEmpty]
        | .error e => [.stError ("Error converting PDF: " ++ e)]
      else []
    match prepare_resume_image convert saveJPEG file_bytes ext with
    | (none, prepEvents) =>
        ("", previewEvents ++ prepEvents ++ [.stError msgProcessFailed])
    | (some b64, prepEvents) =>
        match extract_text_from_resume_from_base64 visionService b64 with
        | (extracted, extractEvents) =>
          if pyStartsWith extracted errorMarker then
            (extracted, previewEvents ++ prepEvents ++ extractEvents ++ [.stError extracted])
          else
            (editResume extracted,
             previewEvents ++ prepEvents ++ extractEvents ++ [.stSuccess msgExtractSuccess])

/-- The Preview-tab rendering of the letter (src/main.py:194-201): the
Modern and Creative templates wrap the text in a styled `div`, the default
renders it as is; the letter text itself is never altered. -/
def displayEvent (template_choice cover_letter : String) : Event :=
  if template_choice = "Modern" then
    .stMarkdown ("<div style=\x27font-family:Arial, sans-serif;\x27>" ++ cover_letter ++ "</div>")
  else if template_choice = "Creative" then
    .stMarkdown ("<div style=\x27font-family:Georgia, serif; color:#4B0082;\x27>" ++ cover_letter ++ "</div>")
  else
    .stMarkdown cover_letter

/-- Step 3 of `main` (src/main.py:178-212): the submission handler run when
the Generate button is activated. Validates the two required fields
(Python's truthiness of `s.strip()`), then calls `generate_cover_letter`
once, classifies its result by the `"Error"` prefix, and on success renders
the letter, offers it in an editable field (the user's edit is `editCover`,
applied to the field's default value) and emits the download artifact. -/
def submitPhase (genService : Except String String)
    (editCover : String → String) (template_choice : String)
    (extracted_resume_text job_description industry tone : String) :
    List Event × SubState :=
  if (pyStrip extracted_resume_text).isEmpty then
    ([.stError msgResumeMissing], .Rejected)
  else if (pyStrip job_description).isEmpty then
    ([.stError msgJobRequired], .Rejected)
  else
    match generate_cover_letter genService extracted_resume_text job_description industry tone with
    | (cover_letter, genEvents) =>
      if pyStartsWith cover_letter errorMarker then
        (genEvents ++ [.stError cover_letter], .Failed)
      else
        (genEvents ++
          [displayEvent template_choice cover_letter,
           .stEditor (editCover cover_letter),
           .download (editCover cover_letter) downloadFileName downloadMime],
         .Ready cover_letter)

/-- One full run of `main` (src/main.py:107-212): step 1 feeds the
(possibly edited) extracted resume text into step 3; step 3 runs only when
the Generate button was activated, otherwise the submission stays `Idle`. -/
def mainRun {Image : Type}
    (convert : List Nat → Except String (List Image))
    (saveJPEG : Image → List Nat)
    (visionService genService : Except String String)
    (editResume editCover : String → String) (template_choice : String)
    (uploaded : Option (List Nat × String))
    (job_description industry tone : String)
    (buttonActivated : Bool) : List Event × SubState :=
  match uploadPhase convert saveJPEG visionService editResume uploaded with
  | (extracted_resume_text, ev1) =>
    if buttonActivated then
      match submitPhase genService editCover template_choice
              extracted_resume_text job_description industry tone with
      | (ev2, s) => (ev1 ++ ev2, s)
    else
      (ev1, .Idle)

/-! ## Helper lemmas -/

/-- Stripping a string all of whose characters are whitespace yields the
empty string. -/
theorem pyStrip_isEmpty_of_whitespace (s : String)
    (h : ∀ c ∈ s.data, isPyWhitespace c = true) : (pyStrip s).isEmpty = true := by
  have h1 : s.data.dropWhile isPyWhitespace = [] :=
    List.dropWhile_eq_nil_iff.mpr h
  simp [pyStrip, h1]
  rfl

/-- A string starting with the error marker still starts with it after a
suffix is appended. -/
theorem pyStartsWith_errorMarker_append (s t : String)
    (h : pyStartsWith s errorMarker = true) :
    pyStartsWith (s ++ t) errorMarker = true := by
  unfold pyStartsWith at h ⊢
  rw [String.data_append]
  rw [List.isPrefixOf_iff_prefix] at h ⊢
  exact h.trans (List.prefix_append s.data t.data)

/-- The Preview-tab rendering is always an `st.markdown` event (and hence
never a network call). -/
theorem displayEvent_eq_stMarkdown (t c : String) :
    ∃ d, displayEvent t c = Event.stMarkdown d := by
  unfold displayEvent
  split
  · exact ⟨_, rfl⟩
  · split
    · exact ⟨_, rfl⟩
    · exact ⟨_, rfl⟩

/-! ## Claims -/

/-- C1: for every submission in which the resume text is empty or the job
description is empty, the submission handler issues zero network calls,
surfaces the field-specific validation message, and ends `Rejected`. -/
theorem C1_empty_field_rejected (genService : Except String String)
    (editCover : String → String) (template_choice : String)
    (resume job industry tone : String)
    (h : resume = "" ∨ job = "") :
    submitPhase genService editCover template_choice resume job industry tone =
      ([Event.stError (if (pyStrip resume).isEmpty then msgResumeMissing else msgJobRequired)],
       SubState.Rejected) ∧
    networkCalls (submitPhase genService editCover template_choice resume job industry tone).1 = 0 := by
  have hempty : (pyStrip ("")).isEmpty = true := rfl
  rcases h with h | h
  · subst h
    have he : submitPhase genService editCover template_choice ("") job industry tone =
        ([Event.stError msgResumeMissing], SubState.Rejected) := by
      simp [submitPhase, hempty]
    refine ⟨?_, ?_⟩
    · rw [he, if_pos hempty]
    · rw [he]
      rfl
  · subst h
    by_cases hr : (pyStrip resume).isEmpty
    · have he : submitPhase genService editCover template_choice resume ("") industry tone =
          ([Event.stError msgResumeMissing], SubState.Rejected) := by
        simp [submitPhase, hr]
      refine ⟨?_, ?_⟩
      · rw [he, if_pos hr]
      · rw [he]
        rfl
    · have he : submitPhase genService editCover template_choice resume ("") industry tone =
          ([Event.stError msgJobRequired], SubState.Rejected) := by
        simp [submitPhase, hr, hempty]
      refine ⟨?_, ?_⟩
      · rw [he, if_neg hr]
      · rw [he]
        rfl

/-- Witness for C1 at a concrete rejected submission. -/
theorem C1_empty_field_rejected_witness :
    submitPhase (Except.error ("srv down")) id ("Classic") ("") ("a real job") ("Technology") ("Professional") =
      ([Event.stError (if (pyStrip ("")).isEmpty then msgResumeMissing else msgJobRequired)],
       SubState.Rejected) ∧
    networkCalls (submitPhase (Except.error ("srv down")) id ("Classic") ("") ("a real job") ("Technology") ("Professional")).1 = 0 :=
  C1_empty_field_rejected (Except.error ("srv down")) id ("Classic") ("") ("a real job")
    ("Technology") ("Professional") (Or.inl rfl)

/-- C4: for every uploaded PDF with at least one page, normalization uses
page one only — the result does not depend on the remaining pages — and
returns the base64 encoding of that page's JPEG re-encoding. -/
theorem C4_pdf_first_page {Image : Type}
    (convert : List Nat → Except String (List Image)) (saveJPEG : Image → List Nat)
    (file_bytes : List Nat) (ext : String) (page1 : Image) (rest : List Image)
    (hext : pyEndsWith ext (".pdf") = true)
    (hconv : convert file_bytes = Except.ok (page1 :: rest)) :
    prepare_resume_image convert saveJPEG file_bytes ext =
      (some (base64Encode (saveJPEG page1)), []) := by
  simp [prepare_resume_image, hext, hconv]

/-- Witness for C4 on a concrete three-page PDF. -/
theorem C4_pdf_first_page_witness :
    prepare_resume_image (fun _ => Except.ok [10, 20, 30]) (fun n : Nat => [n]) [1] ("resume.pdf") =
      (some (base64Encode [10]), []) ∧ base64Encode [10] = ("Cg==") :=
  ⟨C4_pdf_first_page (fun _ => Except.ok [10, 20, 30]) (fun n : Nat => [n]) [1] ("resume.pdf")
      10 [20, 30] (by decide) rfl,
   rfl⟩

/-- C5: when conversion reports zero pages for a PDF, normalization fails
silently with `None` (surfaced by the caller as the generic processing
failure) and the upload phase makes no extraction call; this failure is
distinct from a converter error, which additionally surfaces the
converter's underlying message. -/
theorem C5_conversion_empty {Image : Type}
    (convert : List Nat → Except String (List Image)) (saveJPEG : Image → List Nat)
    (visionService : Except String String) (editResume : String → String)
    (file_bytes : List Nat) (ext : String)
    (hext : pyEndsWith ext (".pdf") = true)
    (hconv : convert file_bytes = Except.ok ([] : List Image)) :
    prepare_resume_image convert saveJPEG file_bytes ext = (none, []) ∧
    uploadPhase convert saveJPEG visionService editResume (some (file_bytes, ext)) =
      ("", [Event.stError msgPreviewEmpty, Event.stError msgProcessFailed]) ∧
    extractionCalls (uploadPhase convert saveJPEG visionService editResume (some (file_bytes, ext))).2 = 0 ∧
    (∀ (convert2 : List Nat → Except String (List Image)) (e : String),
      convert2 file_bytes = Except.error e →
      prepare_resume_image convert2 saveJPEG file_bytes ext =
        (none, [Event.stError ("PDF conversion error: " ++ e)])) := by
  have hprep : prepare_resume_image convert saveJPEG file_bytes ext = (none, []) := by
    simp [prepare_resume_image, hext, hconv]
  have hup : uploadPhase convert saveJPEG visionService editResume (some (file_bytes, ext)) =
      ("", [Event.stError msgPreviewEmpty, Event.stError msgProcessFailed]) := by
    simp [uploadPhase, hext, hconv, hprep]
  refine ⟨hprep, hup, ?_, ?_⟩
  · rw [hup]
    rfl
  · intro convert2 e h2
    simp [prepare_resume_image, hext, h2]

/-- Witness for C5 on a concrete zero-page PDF, with the distinct
converter-error failure instantiated at a concrete erroring converter. -/
theorem C5_conversion_empty_witness :
    prepare_resume_image (fun _ => Except.ok ([] : List Nat)) (fun n : Nat => [n]) [7] ("cv.pdf") = (none, []) ∧
    uploadPhase (fun _ => Except.ok ([] : List Nat)) (fun n : Nat => [n]) (Except.ok ("text")) id (some ([7], "cv.pdf")) =
      ("", [Event.stError msgPreviewEmpty, Event.stError msgProcessFailed]) ∧
    extractionCalls (uploadPhase (fun _ => Except.ok ([] : List Nat)) (fun n : Nat => [n]) (Except.ok ("text")) id (some ([7], "cv.pdf"))).2 = 0 ∧
    prepare_resume_image (fun _ => Except.error ("poppler missing")) (fun n : Nat => [n]) [7] ("cv.pdf") =
      (none, [Event.stError ("PDF conversion error: " ++ "poppler missing")]) := by
  have T := C5_conversion_empty (fun _ => Except.ok ([] : List Nat)) (fun n : Nat => [n])
    (Except.ok ("text")) id [7] ("cv.pdf") (by decide) rfl
  exact ⟨T.1, T.2.1, T.2.2.1, T.2.2.2 (fun _ => Except.error ("poppler missing")) ("poppler missing") rfl⟩

/-- C9: for every uploaded file whose (lowercased) name does not end in
`.pdf`, normalization returns the base64 encoding of the raw bytes
unchanged, emitting no events and taking no failure branch. -/
theorem C9_non_pdf_raw_base64 {Image : Type}
    (convert : List Nat → Except String (List Image)) (saveJPEG : Image → List Nat)
    (file_bytes : List Nat) (ext : String)
    (h : pyEndsWith ext (".pdf") = false) :
    prepare_resume_image convert saveJPEG file_bytes ext =
      (some (base64Encode file_bytes), []) := by
  simp [prepare_resume_image, h]

/-- Witness for C9 on a concrete PNG upload. -/
theorem C9_non_pdf_raw_base64_witness :
    prepare_resume_image (fun _ => Except.ok ([] : List Nat)) (fun n : Nat => [n]) [77] ("cv.png") =
      (some (base64Encode [77]), []) ∧ base64Encode [77] = ("TQ==") :=
  ⟨C9_non_pdf_raw_base64 (fun _ => Except.ok ([] : List Nat)) (fun n : Nat => [n]) [77] ("cv.png")
      (by decide),
   rfl⟩

/-- C2 (amended): for every submission whose resume text and job
description are non-blank after stripping, the submission handler issues
exactly one generation call; when the service call succeeds and the
returned text does not start with the error marker, the submission ends
`Ready` with the returned text as the cover letter. -/
theorem C2_one_generation_call (genService : Except String String)
    (editCover : String → String) (template_choice resume job industry tone : String)
    (hr : (pyStrip resume).isEmpty = false) (hj : (pyStrip job).isEmpty = false) :
    generationCalls (submitPhase genService editCover template_choice resume job industry tone).1 = 1 ∧
    (∀ text : String, genService = Except.ok text → pyStartsWith text errorMarker = false →
      (submitPhase genService editCover template_choice resume job industry tone).2 =
        SubState.Ready text) := by
  cases genService with
  | ok text =>
    by_cases hp : pyStartsWith text errorMarker = true
    · have he : submitPhase (Except.ok text) editCover template_choice resume job industry tone =
          ([Event.generationCall systemMessageContent (userMessageContent resume job industry tone),
            Event.stError text], SubState.Failed) := by
        simp [submitPhase, generate_cover_letter, hr, hj, hp]
      refine ⟨by rw [he]; rfl, ?_⟩
      intro t ht hnp
      cases ht
      rw [hp] at hnp
      cases hnp
    · have hp' : pyStartsWith text errorMarker = false := by
        cases hq : pyStartsWith text errorMarker
        · rfl
        · exact absurd hq hp
      have he : submitPhase (Except.ok text) editCover template_choice resume job industry tone =
          ([Event.generationCall systemMessageContent (userMessageContent resume job industry tone),
            displayEvent template_choice text,
            Event.stEditor (editCover text),
            Event.download (editCover text) downloadFileName downloadMime],
           SubState.Ready text) := by
        simp [submitPhase, generate_cover_letter, hr, hj, hp']
      refine ⟨?_, ?_⟩
      · obtain ⟨d, hd⟩ := displayEvent_eq_stMarkdown template_choice text
        rw [he, hd]
        rfl
      · intro t ht hnp
        cases ht
        rw [he]
  | error e =>
    have hp : pyStartsWith (("Error generating cover letter: ") ++ e) errorMarker = true :=
      pyStartsWith_errorMarker_append (("Error generating cover letter: ")) e (by decide)
    have he : submitPhase (Except.error e) editCover template_choice resume job industry tone =
        ([Event.generationCall systemMessageContent (userMessageContent resume job industry tone),
          Event.stError (("Error generating cover letter: ") ++ e)], SubState.Failed) := by
      simp [submitPhase, generate_cover_letter, hr, hj, hp]
    refine ⟨by rw [he]; rfl, ?_⟩
    intro t ht hnp
    cases ht

/-- Witness for C2 at a concrete successful submission. -/
theorem C2_one_generation_call_witness :
    generationCalls (submitPhase (Except.ok ("Dear Hiring Manager, I write to apply."))
        id ("Classic") ("my resume") ("a job") ("Technology") ("Professional")).1 = 1 ∧
    (submitPhase (Except.ok ("Dear Hiring Manager, I write to apply."))
        id ("Classic") ("my resume") ("a job") ("Technology") ("Professional")).2 =
      SubState.Ready ("Dear Hiring Manager, I write to apply.") := by
  have T := C2_one_generation_call (Except.ok ("Dear Hiring Manager, I write to apply."))
    id ("Classic") ("my resume") ("a job") ("Technology") ("Professional") (by decide) (by decide)
  exact ⟨T.1, T.2 ("Dear Hiring Manager, I write to apply.") rfl (by decide)⟩

/-- Counterexample to C2 as stated: a whitespace-only (hence non-empty)
resume text is rejected with zero generation calls, and a successful call
whose returned text starts with the error marker ends `Failed`, not
`Ready`. -/
theorem C2_counterexample :
    ((" ") ≠ ("")) ∧
    generationCalls (submitPhase (Except.ok ("letter")) id ("Classic") (" ") ("job")
        ("Technology") ("Professional")).1 = 0 ∧
    (submitPhase (Except.ok ("letter")) id ("Classic") (" ") ("job")
        ("Technology") ("Professional")).2 = SubState.Rejected ∧
    (submitPhase (Except.ok ("Error-free code is my craft. Dear Hiring Manager, I apply."))
        id ("Classic") ("resume text") ("job desc") ("Technology") ("Professional")).2 =
      SubState.Failed := by
  refine ⟨by decide, by rfl, by rfl, by rfl⟩

/-- C3: the generation service succeeds (no exception), yet because success
and failure share one string type discriminated only by the `"Error"`
prefix, the legitimately generated letter is classified as an error: it is
surfaced via `st.error` and the submission ends `Failed`, never offering
display or download. -/
theorem C3_successful_text_classified_as_error :
    submitPhase (Except.ok ("Error-handling champion: Dear Hiring Manager, I am excited to apply."))
        id ("Classic") ("resume text") ("job desc") ("Technology") ("Professional") =
      ([Event.generationCall systemMessageContent
          (userMessageContent ("resume text") ("job desc") ("Technology") ("Professional")),
        Event.stError ("Error-handling champion: Dear Hiring Manager, I am excited to apply.")],
       SubState.Failed) := by
  rfl

/-- C6: after a successful extraction, every downstream step sees only the
edited value of the extracted-text field: the field's value handed to the
submission handler is the edited text, the whole run is independent of the
originally extracted value once the edited value is fixed, and the prompt
of the generation call interpolates the edited value. -/
theorem C6_edit_overrides {Image : Type}
    (convert : List Nat → Except String (List Image)) (saveJPEG : Image → List Nat)
    (genService : Except String String) (editCover : String → String)
    (template_choice : String) (file_bytes : List Nat) (ext : String)
    (b64 : String) (prepEvents : List Event)
    (orig1 orig2 edited job industry tone : String)
    (hprep : prepare_resume_image convert saveJPEG file_bytes ext = (some b64, prepEvents))
    (h1 : pyStartsWith orig1 errorMarker = false)
    (h2 : pyStartsWith orig2 errorMarker = false) :
    (uploadPhase convert saveJPEG (Except.ok orig1) (fun _ => edited) (some (file_bytes, ext))).1 = edited ∧
    mainRun convert saveJPEG (Except.ok orig1) genService (fun _ => edited) editCover
        template_choice (some (file_bytes, ext)) job industry tone true =
      mainRun convert saveJPEG (Except.ok orig2) genService (fun _ => edited) editCover
        template_choice (some (file_bytes, ext)) job industry tone true ∧
    ((pyStrip edited).isEmpty = false → (pyStrip job).isEmpty = false →
      Event.generationCall systemMessageContent (userMessageContent edited job industry tone) ∈
        (mainRun convert saveJPEG (Except.ok orig1) genService (fun _ => edited) editCover
            template_choice (some (file_bytes, ext)) job industry tone true).1) := by
  refine ⟨?_, ?_, ?_⟩
  · simp [uploadPhase, hprep, extract_text_from_resume_from_base64, h1]
  · simp [mainRun, uploadPhase, hprep, extract_text_from_resume_from_base64, h1, h2]
  · intro he hj
    cases genService with
    | ok t =>
      by_cases hp : pyStartsWith t errorMarker = true
      · simp [mainRun, uploadPhase, hprep, extract_text_from_resume_from_base64, h1,
          submitPhase, he, hj, generate_cover_letter, hp]
      · have hp' : pyStartsWith t errorMarker = false := by
          cases hq : pyStartsWith t errorMarker
          · rfl
          · exact absurd hq hp
        simp [mainRun, uploadPhase, hprep, extract_text_from_resume_from_base64, h1,
          submitPhase, he, hj, generate_cover_letter, hp']
    | error e =>
      have hp : pyStartsWith (("Error generating cover letter: ") ++ e) errorMarker = true :=
        pyStartsWith_errorMarker_append (("Error generating cover letter: ")) e (by decide)
      simp [mainRun, uploadPhase, hprep, extract_text_from_resume_from_base64, h1,
        submitPhase, he, hj, generate_cover_letter, hp]

/-- Witness for C6 at a concrete edited extraction. -/
theorem C6_edit_overrides_witness :
    (uploadPhase (fun _ => Except.ok [(3 : Nat)]) (fun n => [n]) (Except.ok ("raw extracted"))
        (fun _ => ("edited resume")) (some ([3], "cv.pdf"))).1 = ("edited resume") ∧
    mainRun (fun _ => Except.ok [(3 : Nat)]) (fun n => [n]) (Except.ok ("raw extracted"))
        (Except.ok ("letter")) (fun _ => ("edited resume")) id ("Classic")
        (some ([3], "cv.pdf")) ("job") ("Technology") ("Professional") true =
      mainRun (fun _ => Except.ok [(3 : Nat)]) (fun n => [n]) (Except.ok ("other extracted"))
        (Except.ok ("letter")) (fun _ => ("edited resume")) id ("Classic")
        (some ([3], "cv.pdf")) ("job") ("Technology") ("Professional") true ∧
    Event.generationCall systemMessageContent
        (userMessageContent ("edited resume") ("job") ("Technology") ("Professional")) ∈
      (mainRun (fun _ => Except.ok [(3 : Nat)]) (fun n => [n]) (Except.ok ("raw extracted"))
          (Except.ok ("letter")) (fun _ => ("edited resume")) id ("Classic")
          (some ([3], "cv.pdf")) ("job") ("Technology") ("Professional") true).1 := by
  have T := C6_edit_overrides (fun _ => Except.ok [(3 : Nat)]) (fun n => [n])
    (Except.ok ("letter")) id ("Classic") [3] ("cv.pdf") (base64Encode [3]) []
    ("raw extracted") ("other extracted") ("edited resume") ("job") ("Technology") ("Professional")
    rfl (by decide) (by decide)
  exact ⟨T.1, T.2.1, T.2.2 (by decide) (by decide)⟩

/-- C7: for all inputs, the user message handed to the generation call —
whatever the service outcome — is the deterministic template
`instruction line ++ resume block ++ job block`, interpolating industry,
tone, resume text and job description in that fixed order, with both texts
included in full (no truncation). -/
theorem C7_prompt_template (genService : Except String String)
    (resume job industry tone : String) :
    (generate_cover_letter genService resume job industry tone).2 =
      [Event.generationCall systemMessageContent (userMessageContent resume job industry tone)] ∧
    userMessageContent resume job industry tone =
      promptInstruction industry tone ++ resumeBlock resume ++ jobBlock job := by
  constructor
  · cases genService
    · rfl
    · rfl
  · simp only [userMessageContent, promptInstruction, resumeBlock, jobBlock,
      String.append_assoc]

/-- C8: on a successful generation, the submission's trace ends with the
download artifact whose data is byte-identical to the text shown in the
editable output field, with file name `cover_letter.txt` and MIME type
`text/plain` — for every template choice and every user edit. -/
theorem C8_download_roundtrip (genService : Except String String)
    (editCover : String → String) (template_choice resume job industry tone text : String)
    (hr : (pyStrip resume).isEmpty = false) (hj : (pyStrip job).isEmpty = false)
    (hok : genService = Except.ok text)
    (hpre : pyStartsWith text errorMarker = false) :
    (submitPhase genService editCover template_choice resume job industry tone).1.getLast? =
      some (Event.download (editCover text) downloadFileName downloadMime) ∧
    Event.stEditor (editCover text) ∈
      (submitPhase genService editCover template_choice resume job industry tone).1 ∧
    (submitPhase genService editCover template_choice resume job industry tone).2 =
      SubState.Ready text := by
  subst hok
  have he : submitPhase (Except.ok text) editCover template_choice resume job industry tone =
      ([Event.generationCall systemMessageContent (userMessageContent resume job industry tone),
        displayEvent template_choice text,
        Event.stEditor (editCover text),
        Event.download (editCover text) downloadFileName downloadMime],
       SubState.Ready text) := by
    simp [submitPhase, generate_cover_letter, hr, hj, hpre]
  rw [he]
  refine ⟨rfl, ?_, rfl⟩
  simp

/-- Witness for C8 with a user edit and the Modern template. -/
theorem C8_download_roundtrip_witness :
    (submitPhase (Except.ok ("Dear Team,")) (fun s => s ++ (" Regards.")) ("Modern")
        ("resume") ("job") ("Technology") ("Friendly")).1.getLast? =
      some (Event.download (("Dear Team,") ++ (" Regards.")) downloadFileName downloadMime) ∧
    Event.stEditor (("Dear Team,") ++ (" Regards.")) ∈
      (submitPhase (Except.ok ("Dear Team,")) (fun s => s ++ (" Regards.")) ("Modern")
          ("resume") ("job") ("Technology") ("Friendly")).1 ∧
    (submitPhase (Except.ok ("Dear Team,")) (fun s => s ++ (" Regards.")) ("Modern")
        ("resume") ("job") ("Technology") ("Friendly")).2 =
      SubState.Ready ("Dear Team,") :=
  C8_download_roundtrip (Except.ok ("Dear Team,")) (fun s => s ++ (" Regards.")) ("Modern")
    ("resume") ("job") ("Technology") ("Friendly") ("Dear Team,") (by decide) (by decide)
    rfl (by decide)

/-- C10: a resume text or job description consisting solely of whitespace
is treated exactly like the empty string: the submission is rejected with
zero network calls, and replacing each blank field by the empty string
leaves the submission's behaviour unchanged. -/
theorem C10_whitespace_only_rejected (genService : Except String String)
    (editCover : String → String) (template_choice resume job industry tone : String)
    (h : (∀ c ∈ resume.data, isPyWhitespace c = true) ∨
         (∀ c ∈ job.data, isPyWhitespace c = true)) :
    (submitPhase genService editCover template_choice resume job industry tone).2 =
      SubState.Rejected ∧
    networkCalls (submitPhase genService editCover template_choice resume job industry tone).1 = 0 ∧
    submitPhase genService editCover template_choice resume job industry tone =
      submitPhase genService editCover template_choice
        (if (pyStrip resume).isEmpty then ("") else resume)
        (if (pyStrip job).isEmpty then ("") else job) industry tone := by
  have hempty : (pyStrip ("")).isEmpty = true := rfl
  rcases h with h | h
  · have hr : (pyStrip resume).isEmpty = true := pyStrip_isEmpty_of_whitespace resume h
    have he : submitPhase genService editCover template_choice resume job industry tone =
        ([Event.stError msgResumeMissing], SubState.Rejected) := by
      simp [submitPhase, hr]
    refine ⟨by rw [he], by rw [he]; rfl, ?_⟩
    rw [he, if_pos hr]
    by_cases hjb : (pyStrip job).isEmpty
    · rw [if_pos hjb]
      simp [submitPhase, hempty]
    · rw [if_neg hjb]
      simp [submitPhase, hempty]
  · have hj : (pyStrip job).isEmpty = true := pyStrip_isEmpty_of_whitespace job h
    by_cases hr : (pyStrip resume).isEmpty
    · have he : submitPhase genService editCover template_choice resume job industry tone =
          ([Event.stError msgResumeMissing], SubState.Rejected) := by
        simp [submitPhase, hr]
      refine ⟨by rw [he], by rw [he]; rfl, ?_⟩
      rw [he, if_pos hr, if_pos hj]
      simp [submitPhase, hempty]
    · have hr' : (pyStrip resume).isEmpty = false := by
        cases hq : (pyStrip resume).isEmpty
        · rfl
        · exact absurd hq hr
      have he : submitPhase genService editCover template_choice resume job industry tone =
          ([Event.stError msgJobRequired], SubState.Rejected) := by
        simp [submitPhase, hr', hj]
      refine ⟨by rw [he], by rw [he]; rfl, ?_⟩
      rw [he, if_neg hr, if_pos hj]
      simp [submitPhase, hr', hempty]

/-- Witness for C10 at a concrete whitespace-only resume text. -/
theorem C10_whitespace_only_rejected_witness :
    (submitPhase (Except.ok ("letter text")) id ("Creative") ("  \t\n ") ("Backend role")
        ("Technology") ("Formal")).2 = SubState.Rejected ∧
    networkCalls (submitPhase (Except.ok ("letter text")) id ("Creative") ("  \t\n ") ("Backend role")
        ("Technology") ("Formal")).1 = 0 ∧
    submitPhase (Except.ok ("letter text")) id ("Creative") ("  \t\n ") ("Backend role")
        ("Technology") ("Formal") =
      submitPhase (Except.ok ("letter text")) id ("Creative")
        (if (pyStrip ("  \t\n ")).isEmpty then ("") else ("  \t\n "))
        (if (pyStrip ("Backend role")).isEmpty then ("") else ("Backend role"))
        ("Technology") ("Formal") :=
  C10_whitespace_only_rejected (Except.ok ("letter text")) id ("Creative") ("  \t\n ")
    ("Backend role") ("Technology") ("Formal") (Or.inl (by decide))

end CoverLetter
